import Mathlib

/-!
Verification of the job scheduling and fault-isolated execution pipeline of
`src/automl/benchmark.py`.

The Python code is shallowly embedded: pure computations become Lean
functions, the mutation of `TaskConfig` / `TaskDefinition` attributes becomes
explicit record update, exceptions become `Except`, and logging side effects
(warnings) become explicit values returned alongside the computed data.
Python integers are modelled as `Int`; memory figures (MB) and core counts
are integers.  Python `int(x)` on an exact half-integer `a - h/2` is
truncation toward zero, which matches `Int.div (2*a - h) 2`.
-/

namespace AutoML

/-! ### Resource estimation (`TaskConfig.estimate_system_params`) -/

/-- System memory figures as returned by `system_memory_mb()` (MB). -/
structure SysMemory where
  total : Int
  available : Int
  deriving Repr, DecidableEq

/-- The two advisory warnings that `estimate_system_params` can log. -/
inductive MemWarning where
  /-- Assigned memory exceeds system available memory. -/
  | exceedsAvailable
  /-- Assigned memory is within the recommended OS buffer of system total memory. -/
  | withinOsBuffer
  deriving Repr, DecidableEq

/-- Result of `estimate_system_params`: the updated `cores` and
`max_mem_size_mb` fields of the `TaskConfig`, together with the advisory
warnings that were logged. -/
structure EstimatedParams where
  cores : Int
  max_mem_size_mb : Int
  warnings : List MemWarning
  deriving Repr, DecidableEq

/-- The quantity `int(sys_mem.available - os_recommended_mem / 2)` from
`TaskConfig.estimate_system_params` (benchmark.py line 243): Python computes
the exact value `available - os_recommended_mem / 2` (a half-integer) and
`int` truncates it toward zero, which is `Int.tdiv` of the doubled numerator
by 2. -/
def left_for_app_mem (available os_recommended_mem : Int) : Int :=
  Int.tdiv (2 * available - os_recommended_mem) 2

/-- The memory value assigned by `estimate_system_params`
(benchmark.py lines 244-246); `round` is the identity on integers. -/
def assigned_mem (max_mem_size_mb : Int) (sys_mem : SysMemory)
    (os_recommended_mem : Int) : Int :=
  if max_mem_size_mb > 0 then max_mem_size_mb
  else if left_for_app_mem sys_mem.available os_recommended_mem > 0 then
    left_for_app_mem sys_mem.available os_recommended_mem
  else sys_mem.available

/-- Shallow embedding of `TaskConfig.estimate_system_params`
(benchmark.py lines 235-255).  Inputs: the `cores` and `max_mem_size_mb`
fields of the config, the live system readings `system_cores()` and
`system_memory_mb()`, and the configured headroom
`rconfig().benchmarks.os_mem_size_mb`.  The returned record holds the two
updated fields and the advisory warnings emitted by the `if`/`elif` at
lines 249-255. -/
def estimate_system_params (cores max_mem_size_mb : Int) (sys_cores : Int)
    (sys_mem : SysMemory) (os_recommended_mem : Int) : EstimatedParams :=
  let cores' := if cores > 0 then min cores sys_cores else sys_cores
  let assigned := assigned_mem max_mem_size_mb sys_mem os_recommended_mem
  let warnings :=
    if assigned > sys_mem.available then [MemWarning.exceedsAvailable]
    else if assigned > sys_mem.total - os_recommended_mem then
      [MemWarning.withinOsBuffer]
    else []
  { cores := cores', max_mem_size_mb := assigned, warnings := warnings }

/-! ### Task definitions and job expansion -/

/-- A task definition from the benchmark catalog (an attribute bag in the
Python code).  Optional attributes (`enabled`, the dataset references, the
`id` attribute written by `load_data`) are modelled as `Option` fields, where
`none` stands for an absent attribute. -/
structure TaskDef where
  name : String
  folds : Nat
  metric : List String
  seed : Int
  max_runtime_seconds : Int
  cores : Int
  max_mem_size_mb : Int
  enabled : Option Bool
  openml_task_id : Option Nat
  openml_dataset_id : Option Nat
  dataset : Option String
  id : Option String
  deriving Repr, DecidableEq

/-- A runnable unit produced by `Benchmark._make_job`: in the Python code its
identity is the string `local_<task>_<fold>_<framework>`; we keep the three
components structured. -/
structure Job where
  taskName : String
  fold : Int
  frameworkName : String
  deriving Repr, DecidableEq

/-- Errors raised by job expansion (`ValueError` in the Python code,
distinguished here by their message). -/
inductive BenchError where
  /-- Fold value should be None, an int, or a list of ints. -/
  | invalidFoldSpec
  /-- Fold value `f` is out of range for task `taskName`. -/
  | foldOutOfRange (f : Int) (taskName : String)
  deriving Repr, DecidableEq

/-- The `folds` argument of `Benchmark._task_jobs`: Python accepts `None`, a
single `int`, a list of `int`, and rejects every other shape (`other`). -/
inductive FoldSpec where
  | noSpec
  | single (f : Int)
  | listOf (fs : List Int)
  /-- Any value that is neither None, an int, nor a list of ints. -/
  | other
  deriving Repr, DecidableEq

/-- Shallow embedding of `Benchmark._make_job` (benchmark.py lines 152-161):
validates the fold bound then builds the job for `(task_def, fold)`. -/
def make_job (framework_name : String) (task_def : TaskDef) (fold : Int) :
    Except BenchError Job :=
  if fold < 0 ∨ fold ≥ (task_def.folds : Int) then
    .error (.foldOutOfRange fold task_def.name)
  else
    .ok { taskName := task_def.name, fold := fold, frameworkName := framework_name }

/-- The normalization of the `folds` argument at benchmark.py lines 144-147:
`None` expands to `range(task_def.folds)`, a list of ints is kept, a single
int becomes a singleton list, anything else normalizes to `None` (reported
as an invalid fold spec by the caller). -/
def normalize_folds (k : Nat) : FoldSpec → Option (List Int)
  | .noSpec => some ((List.range k).map Int.ofNat)
  | .listOf fs => some fs
  | .single f => some [f]
  | .other => none

/-- The list comprehension `[self._make_job(task_def, f) for f in folds]`
(benchmark.py line 150): jobs are built left to right and the first
out-of-range fold raises, so no job list is returned. -/
def make_jobs (framework_name : String) (task_def : TaskDef) :
    List Int → Except BenchError (List Job)
  | [] => .ok []
  | f :: fs => do
      let j ← make_job framework_name task_def f
      let js ← make_jobs framework_name task_def fs
      pure (j :: js)

/-- Shallow embedding of `Benchmark._task_jobs` (benchmark.py lines 143-150). -/
def task_jobs (framework_name : String) (task_def : TaskDef)
    (folds : FoldSpec) : Except BenchError (List Job) :=
  match normalize_folds task_def.folds folds with
  | none => .error .invalidFoldSpec
  | some fs => make_jobs framework_name task_def fs

/-! ### The executor: `BenchmarkTask.run` fault isolation and message
truncation -/

/-- Error messages are Python strings, modelled as lists of characters so
that slicing and length are literal. -/
abbrev Msg := List Char

/-- Python slicing `s[:i]` for an `Int` index: a non-negative bound takes a
prefix (clamped to the length), a negative bound counts from the end. -/
def pySliceTo (s : Msg) (i : Int) : Msg :=
  if 0 ≤ i then s.take i.toNat else s.take ((s.length : Int) + i).toNat

/-- The message truncation at benchmark.py line 335:
`msg if len(msg) <= max_len else (msg[:max_len - 3] + three dots)`. -/
def truncate_msg (max_len : Nat) (msg : Msg) : Msg :=
  if msg.length ≤ max_len then msg
  else pySliceTo msg ((max_len : Int) - 3) ++ ['.', '.', '.']

/-- The prefix prepended to the exception text at benchmark.py line 333
(`msg = 'Error: ' + str(e)`). -/
def errorMessageHeader : Msg := "Error: ".toList

/-- Outcome of the framework adapter invocation
`framework.run(self._dataset, task_config)` (benchmark.py line 328): either a
meta result, or a raised exception carrying its text `str(e)`.  The meta
result content is opaque to the executor. -/
inductive AdapterOutcome where
  | ok (meta : Nat)
  | exn (text : Msg)
  deriving Repr, DecidableEq

/-- The Result produced by one `BenchmarkTask.run` call
(`results.compute_scores(...)`): either scores computed from the adapter meta
result, or a `NoResult` carrying the truncated diagnostic message. -/
inductive RunResult where
  | scored (meta : Nat)
  | noResult (info : Msg)
  deriving Repr, DecidableEq

/-- The body of the `try` block of `BenchmarkTask.run` (benchmark.py
lines 326-330) as an exception-producing computation: the adapter call may
raise, and a raised exception escapes the block with its text. -/
def run_try_body (adapter : AdapterOutcome) : Except Msg RunResult :=
  match adapter with
  | .ok meta => .ok (.scored meta)
  | .exn e => .error e

/-- Shallow embedding of `BenchmarkTask.run` (benchmark.py lines 301-338)
after dataset loading has succeeded: the `except Exception` handler at
lines 331-336 converts any exception from the `try` block into a `NoResult`
whose message is `'Error: ' + str(e)` truncated to
`rconfig().results.error_max_length` (`max_len` here).  The function is total:
it always returns exactly one `RunResult`. -/
def BenchmarkTask.run (max_len : Nat) (adapter : AdapterOutcome) : RunResult :=
  match run_try_body adapter with
  | .ok result => result
  | .error e => .noResult (truncate_msg max_len (errorMessageHeader ++ e))

/-! ### Dataset loading: `BenchmarkTask.load_data` and the task definition -/

/-- A dataset handle as delivered by the dataset service; only the
target-column metadata is observed by the executor. -/
structure Dataset where
  targetIsCategorical : Bool
  deriving Repr, DecidableEq

/-- Errors raised by `BenchmarkTask.load_data` (benchmark.py lines 272-290):
the two `NotImplementedError` branches and the final `ValueError`. -/
inductive LoadError where
  | openmlDatasetNotSupported
  | rawDatasetNotSupported
  | noDatasetProperty
  deriving Repr, DecidableEq

/-- Shallow embedding of `BenchmarkTask.load_data` (benchmark.py
lines 272-290) restricted to its effect on the task definition and its
outcome.  The loader result (the dataset returned by
`Benchmark.task_loader.load`) is passed in, since the OpenML service is an
external collaborator.  Note that every branch except the last assigns
`self._task_def.id` before returning or raising, so the function returns the
updated task definition together with the outcome. -/
def BenchmarkTask.load_data (loaded : Dataset) (task_def : TaskDef) :
    TaskDef × Except LoadError Dataset :=
  match task_def.openml_task_id with
  | some tid =>
      ({ task_def with id := some ("openml.org/t/" ++ toString tid) }, .ok loaded)
  | none =>
      match task_def.openml_dataset_id with
      | some did =>
          ({ task_def with id := some ("openml.org/d/" ++ toString did) },
           .error .openmlDatasetNotSupported)
      | none =>
          match task_def.dataset with
          | some _ => ({ task_def with id := none }, .error .rawDatasetNotSupported)
          | none => (task_def, .error .noDatasetProperty)

/-! ### Parallelism validation and runner selection -/

/-- Shallow embedding of `Benchmark._validate` (benchmark.py lines 62-65):
values greater than 1 are replaced by 1 and a warning is logged (the returned
`Bool`); all other values pass through silently. -/
def validate_parallel_jobs (parallel_jobs : Int) : Int × Bool :=
  if parallel_jobs > 1 then (1, true) else (parallel_jobs, false)

/-- The two runner branches of `Benchmark._run_jobs`. -/
inductive RunnerChoice where
  | simpleRunner
  | multiThreadingRunner
  deriving Repr, DecidableEq

/-- The runner selection of `Benchmark._run_jobs` (benchmark.py
lines 120-124): `SimpleJobRunner` iff `self.parallel_jobs == 1`. -/
def runner_choice (parallel_jobs : Int) : RunnerChoice :=
  if parallel_jobs = 1 then .simpleRunner else .multiThreadingRunner

/-! ### Duration reconciliation and result collection -/

/-- An adapter-reported duration: either NaN (`math.isnan` holds) or an
ordinary number. -/
inductive Duration where
  | nan
  | val (seconds : Int)
  deriving Repr, DecidableEq

/-- The `math.isnan(...)` test on a reported duration. -/
def Duration.isNan : Duration → Bool
  | .nan => true
  | .val _ => false

/-- The data of one job result (`res.result` in `_run_jobs`): the task name
it belongs to and its reported duration; the score payload is opaque. -/
structure ResultData where
  task : String
  duration : Duration
  scores : Nat
  deriving Repr, DecidableEq

/-- One per-job completion as returned by a job runner: the job's result
(absent when the job produced none) and the runner-measured wall-clock
duration `res.duration`. -/
structure JobCompletion where
  result : Option ResultData
  duration : Int
  deriving Repr, DecidableEq

/-- The reconciliation of one completion performed by the loop at
benchmark.py lines 126-128: when the job has a result whose reported
duration is NaN, that duration is overwritten with the runner-measured
duration; otherwise the completion is untouched. -/
def reconcile_duration (res : JobCompletion) : JobCompletion :=
  match res.result with
  | some r =>
      if r.duration.isNan then
        { res with result := some { r with duration := .val res.duration } }
      else res
  | none => res

/-- Shallow embedding of the post-processing of `Benchmark._run_jobs`
(benchmark.py lines 126-129), applied to the completions returned by the
selected job runner. -/
def run_jobs_reconcile (results : List JobCompletion) : List JobCompletion :=
  results.map reconcile_duration

/-- A scoreboard as built by `Benchmark._process_results`: the flattened
score list and the name binding (a task name or the benchmark name, never
both). -/
structure Board where
  scores : List ResultData
  framework_name : String
  task_name : Option String
  benchmark_name : Option String
  deriving Repr, DecidableEq

/-- Shallow embedding of `Benchmark._process_results` (benchmark.py
lines 163-175): flatten the per-completion results, return `None` when the
score list is empty, otherwise build the scoreboard bound to the task name
when one is given and to the benchmark name otherwise.  (The Python
truthiness test `not any(scores)` coincides with emptiness here since result
objects are truthy.)  Persistence (`self._save`) is modelled by the caller. -/
def process_results (framework_name benchmark_name : String)
    (results : List JobCompletion) (task_name : Option String) : Option Board :=
  let scores := results.filterMap (fun res => res.result)
  if scores.isEmpty then none
  else some (match task_name with
    | some t => { scores := scores, framework_name := framework_name,
                  task_name := some t, benchmark_name := none }
    | none => { scores := scores, framework_name := framework_name,
                task_name := none, benchmark_name := some benchmark_name })

/-- The filter applied to `results` for one task inside `Benchmark.run`
(benchmark.py line 113): completions whose result exists and belongs to the
task. -/
def task_results_for (results : List JobCompletion) (task_def : TaskDef) :
    List JobCompletion :=
  results.filter (fun res =>
    match res.result with
    | some r => r.task = task_def.name
    | none => false)

/-- One iteration of the scoreboard loop of `Benchmark.run` (benchmark.py
lines 112-114): build the board for one task from its filtered results,
record it as persisted when the results-save flag is on and the board is
non-empty, and rebind the `scoreboard` variable (the second component). -/
def scoreboard_step (framework_name benchmark_name : String) (save : Bool)
    (results : List JobCompletion) (acc : List Board × Option Board)
    (task_def : TaskDef) : List Board × Option Board :=
  let board := process_results framework_name benchmark_name
    (task_results_for results task_def) (some task_def.name)
  (acc.1 ++ (if save then board.toList else []), board)

/-- Shallow embedding of the scoreboard loop of `Benchmark.run` for an
explicit task-name list (benchmark.py lines 112-115): the loop rebinds the
`scoreboard` variable on every iteration and `run` returns its final value,
so only the last task's board is returned.  The first component accumulates
the boards persisted by `_process_results` (each non-empty board, when the
results-save flag is on). -/
def run_scoreboard_loop (framework_name benchmark_name : String) (save : Bool)
    (results : List JobCompletion) (task_defs : List TaskDef) :
    List Board × Option Board :=
  task_defs.foldl (scoreboard_step framework_name benchmark_name save results)
    ([], none)

/-! ### Claim C3: core-count resolution -/

/-- C3.  Core-count resolution: for every requested core count `c` taken
from the task definition and system core count `S_c`, the resolved core
count computed by `estimate_system_params` equals `min c S_c` when `c > 0`,
and equals `S_c` when `c ≤ 0`. -/
theorem cores_resolution (c m sc : Int) (mem : SysMemory) (h_os : Int) :
    (c > 0 → (estimate_system_params c m sc mem h_os).cores = min c sc) ∧
    (c ≤ 0 → (estimate_system_params c m sc mem h_os).cores = sc) := by
  refine ⟨fun h => ?_, fun h => ?_⟩
  · simp only [estimate_system_params, if_pos h]
  · simp only [estimate_system_params, if_neg (by omega : ¬ c > 0)]

/-- Witness for C3: both hypotheses are dischargeable at concrete inputs and
the resolved core counts evaluate as stated. -/
theorem cores_resolution_witness :
    (estimate_system_params 3 0 8 ⟨1000, 500⟩ 10).cores = min 3 8 ∧
    (estimate_system_params 0 0 8 ⟨1000, 500⟩ 10).cores = 8 :=
  ⟨(cores_resolution 3 0 8 ⟨1000, 500⟩ 10).1 (by decide),
   (cores_resolution 0 0 8 ⟨1000, 500⟩ 10).2 (by decide)⟩

/-! ### Claim C4: memory resolution -/

/-- C4.  Memory resolution: for requested memory `m` (MB), system available
memory `S_a`, and configured OS headroom `H`, the resolved memory computed
by `estimate_system_params` equals `m` when `m > 0`; otherwise the
headroom-adjusted availability `S_a - H/2` (`left_for_app_mem`) when that
value is positive; otherwise `S_a`. -/
theorem memory_resolution (c m sc : Int) (mem : SysMemory) (h_os : Int) :
    (m > 0 → (estimate_system_params c m sc mem h_os).max_mem_size_mb = m) ∧
    (m ≤ 0 → 0 < left_for_app_mem mem.available h_os →
      (estimate_system_params c m sc mem h_os).max_mem_size_mb
        = left_for_app_mem mem.available h_os) ∧
    (m ≤ 0 → left_for_app_mem mem.available h_os ≤ 0 →
      (estimate_system_params c m sc mem h_os).max_mem_size_mb
        = mem.available) := by
  refine ⟨fun h => ?_, fun h h2 => ?_, fun h h2 => ?_⟩
  · simp only [estimate_system_params, assigned_mem, if_pos h]
  · simp only [estimate_system_params, assigned_mem,
      if_neg (by omega : ¬ m > 0), if_pos h2]
  · simp only [estimate_system_params, assigned_mem,
      if_neg (by omega : ¬ m > 0),
      if_neg (by omega : ¬ left_for_app_mem mem.available h_os > 0)]

/-- Witness for C4: all three branches are reachable at concrete inputs and
evaluate as stated (for the middle branch, `left_for_app_mem 600 100 = 550`). -/
theorem memory_resolution_witness :
    (estimate_system_params 2 512 8 ⟨1000, 600⟩ 100).max_mem_size_mb = 512 ∧
    (estimate_system_params 2 0 8 ⟨1000, 600⟩ 100).max_mem_size_mb
      = left_for_app_mem 600 100 ∧
    (estimate_system_params 2 0 8 ⟨1000, 10⟩ 100).max_mem_size_mb = 10 :=
  ⟨(memory_resolution 2 512 8 ⟨1000, 600⟩ 100).1 (by decide),
   (memory_resolution 2 0 8 ⟨1000, 600⟩ 100).2.1 (by decide) (by decide),
   (memory_resolution 2 0 8 ⟨1000, 10⟩ 100).2.2 (by decide) (by decide)⟩

/-! ### Claim C5: advisory memory warnings -/

/-- Counterexample to C5 as stated: with requested memory 90MB, system
memory (total 100MB, available 10MB) and headroom 20MB, the resolved memory
(90MB) falls within the headroom of total memory (it exceeds 100 - 20 = 80),
yet the second warning is NOT emitted, because the code uses `elif` and the
first warning (90 exceeds available 10) shadows it. -/
theorem memory_warning_counterexample :
    (estimate_system_params 1 90 4 ⟨100, 10⟩ 20).max_mem_size_mb > 100 - 20 ∧
    MemWarning.withinOsBuffer ∉
      (estimate_system_params 1 90 4 ⟨100, 10⟩ 20).warnings := by
  decide

/-- C5 (amended).  `estimate_system_params` emits the first warning exactly
when the resolved memory exceeds available memory `S_a`, and the second,
distinct warning exactly when the resolved memory does NOT exceed `S_a` but
falls within the configured headroom `H` of total memory `S_t` (the `elif`
makes the two warnings mutually exclusive); both are advisory only and the
resolved value is the one computed by `assigned_mem` in every case. -/
theorem memory_warnings (c m sc : Int) (mem : SysMemory) (h_os : Int) :
    (estimate_system_params c m sc mem h_os).max_mem_size_mb
      = assigned_mem m mem h_os ∧
    (MemWarning.exceedsAvailable ∈ (estimate_system_params c m sc mem h_os).warnings
      ↔ assigned_mem m mem h_os > mem.available) ∧
    (MemWarning.withinOsBuffer ∈ (estimate_system_params c m sc mem h_os).warnings
      ↔ (assigned_mem m mem h_os ≤ mem.available ∧
         assigned_mem m mem h_os > mem.total - h_os)) := by
  simp only [estimate_system_params]
  split_ifs with h1 h2 <;> simp_all

/-- Witness for C5 (amended): at a concrete input where the resolved memory
does not exceed available memory but erodes the OS buffer, the second
warning is emitted. -/
theorem memory_warnings_witness :
    MemWarning.withinOsBuffer ∈
      (estimate_system_params 1 90 4 ⟨100, 95⟩ 20).warnings :=
  ((memory_warnings 1 90 4 ⟨100, 95⟩ 20).2.2).mpr (by decide)

/-! ### Claim C6: error-message truncation -/

/-- C6.  Error-message truncation: for the configured maximum length
`max_len` (at least the length of the three-dot marker), a message longer
than `max_len` is stored with length exactly `max_len` and ends with the
marker; a message of length at most `max_len` is stored unchanged. -/
theorem error_message_truncation (max_len : Nat) (msg : Msg)
    (h3 : 3 ≤ max_len) :
    (msg.length ≤ max_len → truncate_msg max_len msg = msg) ∧
    (max_len < msg.length →
      (truncate_msg max_len msg).length = max_len ∧
      List.IsSuffix ['.', '.', '.'] (truncate_msg max_len msg)) := by
  constructor
  · intro h
    simp only [truncate_msg, if_pos h]
  · intro h
    have hneg : ¬ msg.length ≤ max_len := by omega
    have hslice : pySliceTo msg ((max_len : Int) - 3) = msg.take (max_len - 3) := by
      simp only [pySliceTo, if_pos (by omega : (0 : Int) ≤ (max_len : Int) - 3)]
      congr 1
      omega
    constructor
    · simp only [truncate_msg, if_neg hneg, hslice, List.length_append,
        List.length_take, List.length_cons, List.length_nil]
      omega
    · simp only [truncate_msg, if_neg hneg]
      exact ⟨pySliceTo msg ((max_len : Int) - 3), rfl⟩

/-- Witness for C6: with maximum length 5, a 2-character message passes
through unchanged and an 8-character message is truncated to length 5 ending
in the marker. -/
theorem error_message_truncation_witness :
    truncate_msg 5 ['a', 'b'] = ['a', 'b'] ∧
    ((truncate_msg 5 ['a', 'b', 'c', 'd', 'e', 'f', 'g', 'h']).length = 5 ∧
      List.IsSuffix ['.', '.', '.']
        (truncate_msg 5 ['a', 'b', 'c', 'd', 'e', 'f', 'g', 'h'])) :=
  ⟨(error_message_truncation 5 ['a', 'b'] (by decide)).1 (by decide),
   (error_message_truncation 5 ['a', 'b', 'c', 'd', 'e', 'f', 'g', 'h']
      (by decide)).2 (by decide)⟩

/-! ### Claim C1: fault isolation of adapter failures -/

/-- C1.  Fault isolation: once dataset loading has succeeded, if the
framework adapter's `run` invocation raises any exception,
`BenchmarkTask.run` catches it and returns a `NoResult` whose message is the
exception text (prefixed as in the code) truncated to the configured maximum
length; moreover for every adapter outcome the call returns exactly one
`RunResult` and never raises (the embedding is a total function into
`RunResult`, not an exception-producing computation). -/
theorem adapter_fault_isolation (max_len : Nat) (text : Msg) :
    BenchmarkTask.run max_len (.exn text)
      = .noResult (truncate_msg max_len (errorMessageHeader ++ text)) ∧
    ∀ outcome : AdapterOutcome, ∃! result : RunResult,
      BenchmarkTask.run max_len outcome = result :=
  ⟨rfl, fun outcome =>
    ⟨BenchmarkTask.run max_len outcome, rfl, fun _ h => h.symm⟩⟩

/-! ### Claim C2: fold expansion validity -/

theorem make_job_ok (fw : String) (td : TaskDef) (f : Int)
    (h0 : 0 ≤ f) (hk : f < (td.folds : Int)) :
    make_job fw td f
      = .ok { taskName := td.name, fold := f, frameworkName := fw } := by
  simp only [make_job]
  rw [if_neg (by omega)]

theorem make_job_err (fw : String) (td : TaskDef) (f : Int)
    (h : f < 0 ∨ (td.folds : Int) ≤ f) :
    make_job fw td f = .error (.foldOutOfRange f td.name) := by
  simp only [make_job]
  rw [if_pos (by omega)]

theorem make_jobs_eq_map (fw : String) (td : TaskDef) :
    ∀ fs : List Int, (∀ f ∈ fs, 0 ≤ f ∧ f < (td.folds : Int)) →
      make_jobs fw td fs
        = .ok (fs.map fun f =>
            { taskName := td.name, fold := f, frameworkName := fw }) := by
  intro fs
  induction fs with
  | nil => intro _; rfl
  | cons a l ih =>
      intro h
      have ha := h a (List.mem_cons_self a l)
      have hl := fun f hf => h f (List.mem_cons_of_mem a hf)
      simp only [make_jobs, make_job_ok fw td a ha.1 ha.2, ih hl, List.map_cons]
      rfl

theorem make_jobs_err (fw : String) (td : TaskDef) :
    ∀ fs : List Int, (¬ ∀ f ∈ fs, 0 ≤ f ∧ f < (td.folds : Int)) →
      ∃ g, make_jobs fw td fs = .error (.foldOutOfRange g td.name) := by
  intro fs
  induction fs with
  | nil => intro h; exact absurd (by simp) h
  | cons a l ih =>
      intro h
      by_cases ha : 0 ≤ a ∧ a < (td.folds : Int)
      · have hl : ¬ ∀ f ∈ l, 0 ≤ f ∧ f < (td.folds : Int) := by
          intro hall
          refine h ?_
          intro f hf
          rcases List.mem_cons.mp hf with rfl | hf
          · exact ha
          · exact hall f hf
        obtain ⟨g, hg⟩ := ih hl
        refine ⟨g, ?_⟩
        simp only [make_jobs, make_job_ok fw td a ha.1 ha.2, hg]
        rfl
      · refine ⟨a, ?_⟩
        simp only [make_jobs,
          make_job_err fw td a (by omega : a < 0 ∨ (td.folds : Int) ≤ a)]
        rfl

/-- C2.  Fold expansion validity: the `folds` argument accepts omission
(expanding to one job per fold of the task), a single integer fold, or a
list of integer folds, and any other shape is an invalid-fold-spec error;
for every fold list `F` and a task with `k` folds, expansion succeeds iff
every element of `F` is in `[0, k)`, and otherwise a fold-out-of-range error
is raised and no jobs are returned. -/
theorem fold_expansion (fw : String) (td : TaskDef) (F : List Int) (g : Int) :
    task_jobs fw td .other = .error .invalidFoldSpec ∧
    task_jobs fw td .noSpec
      = .ok (((List.range td.folds).map Int.ofNat).map fun f =>
          { taskName := td.name, fold := f, frameworkName := fw }) ∧
    task_jobs fw td (.single g) = task_jobs fw td (.listOf [g]) ∧
    ((∃ jobs, task_jobs fw td (.listOf F) = .ok jobs) ↔
      ∀ f ∈ F, 0 ≤ f ∧ f < (td.folds : Int)) ∧
    ((¬ ∀ f ∈ F, 0 ≤ f ∧ f < (td.folds : Int)) →
      ∃ f, task_jobs fw td (.listOf F) = .error (.foldOutOfRange f td.name)) := by
  refine ⟨rfl, ?_, rfl, ⟨?_, ?_⟩, ?_⟩
  · have hall : ∀ f ∈ (List.range td.folds).map Int.ofNat,
        0 ≤ f ∧ f < (td.folds : Int) := by
      intro f hf
      obtain ⟨i, hi, rfl⟩ := List.mem_map.mp hf
      refine ⟨Int.ofNat_nonneg i, ?_⟩
      have hi2 := List.mem_range.mp hi
      simp only [Int.ofNat_eq_natCast]
      exact_mod_cast hi2
    simp only [task_jobs, normalize_folds, make_jobs_eq_map fw td _ hall]
  · rintro ⟨jobs, hjobs⟩
    by_contra hnot
    obtain ⟨e, he⟩ := make_jobs_err fw td F hnot
    simp only [task_jobs, normalize_folds] at hjobs
    rw [he] at hjobs
    exact Except.noConfusion hjobs
  · intro hall
    refine ⟨F.map fun f =>
      { taskName := td.name, fold := f, frameworkName := fw }, ?_⟩
    simp only [task_jobs, normalize_folds, make_jobs_eq_map fw td F hall]
  · intro hnot
    obtain ⟨e, he⟩ := make_jobs_err fw td F hnot
    refine ⟨e, ?_⟩
    simp only [task_jobs, normalize_folds, he]

/-- A sample task definition used to instantiate the theorems: the iris
task with 2 folds and an OpenML task id. -/
def iris_task_def : TaskDef :=
  { name := "iris", folds := 2, metric := ["acc", "logloss"], seed := 42,
    max_runtime_seconds := 600, cores := 4, max_mem_size_mb := 1024,
    enabled := some true, openml_task_id := some 59,
    openml_dataset_id := none, dataset := none, id := none }

/-- Witness for C2: requesting folds `[0, 5]` on the 2-fold iris task gives
a fold-out-of-range error, while `[0, 1]` expands to jobs. -/
theorem fold_expansion_witness :
    (∃ f, task_jobs "constant" iris_task_def (.listOf [0, 5])
        = .error (.foldOutOfRange f iris_task_def.name)) ∧
    (∃ jobs, task_jobs "constant" iris_task_def (.listOf [0, 1]) = .ok jobs) :=
  ⟨(fold_expansion "constant" iris_task_def [0, 5] 0).2.2.2.2 (by decide),
   ((fold_expansion "constant" iris_task_def [0, 1] 0).2.2.2.1).mpr (by decide)⟩

/-! ### Claim C7: duration reconciliation -/

/-- C7.  Duration reconciliation: `_run_jobs` applies `reconcile_duration`
to every completion positionally; for a completion whose result reports a
NaN duration the duration is replaced by the runner-measured wall-clock
duration of that job, and in every other case the completion is preserved
unchanged. -/
theorem duration_reconciliation (results : List JobCompletion) (i : Nat)
    (res : JobCompletion) (r : ResultData) :
    (run_jobs_reconcile results)[i]? = (results[i]?).map reconcile_duration ∧
    (res.result = some r → r.duration = .nan →
      reconcile_duration res
        = { res with result := some { r with duration := .val res.duration } }) ∧
    (res.result = some r → r.duration ≠ .nan → reconcile_duration res = res) ∧
    (res.result = none → reconcile_duration res = res) := by
  refine ⟨?_, fun hr hnan => ?_, fun hr hnan => ?_, fun hr => ?_⟩
  · simp [run_jobs_reconcile]
  · simp only [reconcile_duration, hr, hnan, Duration.isNan, if_pos]
  · have : r.duration.isNan = false := by
      cases hd : r.duration
      · exact absurd hd hnan
      · rfl
    simp only [reconcile_duration, hr, this]
    rfl
  · simp only [reconcile_duration, hr]

/-- Witness for C7: a completion whose result reports a NaN duration gets
the runner-measured 7 seconds, and one reporting 3 seconds is preserved. -/
theorem duration_reconciliation_witness :
    reconcile_duration ⟨some ⟨"iris", .nan, 0⟩, 7⟩
      = ⟨some ⟨"iris", .val 7, 0⟩, 7⟩ ∧
    reconcile_duration ⟨some ⟨"iris", .val 3, 0⟩, 7⟩
      = ⟨some ⟨"iris", .val 3, 0⟩, 7⟩ :=
  ⟨(duration_reconciliation [] 0 ⟨some ⟨"iris", .nan, 0⟩, 7⟩
      ⟨"iris", .nan, 0⟩).2.1 rfl rfl,
   (duration_reconciliation [] 0 ⟨some ⟨"iris", .val 3, 0⟩, 7⟩
      ⟨"iris", .val 3, 0⟩).2.2.1 rfl (by simp)⟩

/-! ### Claim C8: task-definition immutability -/

/-- Counterexample to C8 as stated: dataset loading DOES modify the loaded
task definition: on the iris task (whose `id` attribute is absent before
loading), `load_data` assigns `task_def.id`, so a field of the
`TaskDefinition` changes. -/
theorem task_def_mutation_counterexample :
    ((BenchmarkTask.load_data ⟨true⟩ iris_task_def).1).id ≠ iris_task_def.id := by
  simp [BenchmarkTask.load_data, iris_task_def]

/-- C8 (amended).  Once a `TaskDefinition` has been loaded, no core
operation modifies any of its fields other than `id`: dataset loading
assigns only the derived dataset reference `id` (for an OpenML task, the
`openml.org/t/` URL) and leaves every other field unchanged, on every path
including the failing ones. -/
theorem task_def_fields_preserved (d : Dataset) (td : TaskDef) :
    ((BenchmarkTask.load_data d td).1).name = td.name ∧
    ((BenchmarkTask.load_data d td).1).folds = td.folds ∧
    ((BenchmarkTask.load_data d td).1).metric = td.metric ∧
    ((BenchmarkTask.load_data d td).1).seed = td.seed ∧
    ((BenchmarkTask.load_data d td).1).max_runtime_seconds
      = td.max_runtime_seconds ∧
    ((BenchmarkTask.load_data d td).1).cores = td.cores ∧
    ((BenchmarkTask.load_data d td).1).max_mem_size_mb = td.max_mem_size_mb ∧
    ((BenchmarkTask.load_data d td).1).enabled = td.enabled ∧
    ((BenchmarkTask.load_data d td).1).openml_task_id = td.openml_task_id ∧
    ((BenchmarkTask.load_data d td).1).openml_dataset_id
      = td.openml_dataset_id ∧
    ((BenchmarkTask.load_data d td).1).dataset = td.dataset ∧
    (∀ tid, td.openml_task_id = some tid →
      ((BenchmarkTask.load_data d td).1).id
        = some ("openml.org/t/" ++ toString tid)) := by
  cases hti : td.openml_task_id with
  | some tid => simp [BenchmarkTask.load_data, hti]
  | none =>
      cases hdi : td.openml_dataset_id with
      | some did => simp [BenchmarkTask.load_data, hti, hdi]
      | none =>
          cases hds : td.dataset with
          | some ds => simp [BenchmarkTask.load_data, hti, hdi, hds]
          | none => simp [BenchmarkTask.load_data, hti, hdi, hds]

/-- Witness for C8 (amended): on the iris task the loaded definition keeps
its fold count and gets the derived OpenML task reference as `id`. -/
theorem task_def_fields_preserved_witness :
    ((BenchmarkTask.load_data ⟨true⟩ iris_task_def).1).folds
      = iris_task_def.folds ∧
    ((BenchmarkTask.load_data ⟨true⟩ iris_task_def).1).id
      = some ("openml.org/t/" ++ toString 59) :=
  ⟨(task_def_fields_preserved ⟨true⟩ iris_task_def).2.1,
   (task_def_fields_preserved ⟨true⟩ iris_task_def).2.2.2.2.2.2.2.2.2.2.2
     59 rfl⟩

/-! ### Claim C9: sequential-only execution invariant -/

/-- Counterexample to C9 as stated: `_validate` only clamps values greater
than 1, so constructing a benchmark with `parallel_jobs = 0` leaves the
field at 0 and `_run_jobs` takes the `MultiThreadingJobRunner` branch. -/
theorem sequential_only_counterexample :
    (validate_parallel_jobs 0).1 ≠ 1 ∧
    runner_choice (validate_parallel_jobs 0).1 = .multiThreadingRunner := by
  decide

/-- C9 (amended).  For every `parallel_jobs ≥ 1` passed to the constructor,
after `_validate` the field equals 1 (values greater than 1 are clamped,
with a warning logged), so `_run_jobs` selects the sequential
`SimpleJobRunner`; values below 1 are not clamped and would select the
`MultiThreadingJobRunner` branch. -/
theorem sequential_runner_selected (p : Int) (hp : 1 ≤ p) :
    (validate_parallel_jobs p).1 = 1 ∧
    runner_choice (validate_parallel_jobs p).1 = .simpleRunner ∧
    (1 < p → (validate_parallel_jobs p).2 = true) := by
  rcases eq_or_lt_of_le hp with h | h
  · subst h
    decide
  · simp [validate_parallel_jobs, runner_choice, h]

/-- Witness for C9 (amended): `parallel_jobs = 3` is clamped to 1 with a
warning and the sequential runner is selected. -/
theorem sequential_runner_selected_witness :
    (validate_parallel_jobs 3).1 = 1 ∧
    runner_choice (validate_parallel_jobs 3).1 = .simpleRunner ∧
    (1 < (3 : Int) → (validate_parallel_jobs 3).2 = true) :=
  sequential_runner_selected 3 (by decide)

/-! ### Claim C10: last-task-only report -/

theorem scoreboard_foldl_boards (fw bm : String) (save : Bool)
    (results : List JobCompletion) :
    ∀ (tds : List TaskDef) (acc : List Board × Option Board),
      (tds.foldl (scoreboard_step fw bm save results) acc).1
        = acc.1 ++ (if save then tds.filterMap (fun td =>
            process_results fw bm (task_results_for results td) (some td.name))
          else []) := by
  intro tds
  induction tds with
  | nil => intro acc; cases save <;> simp
  | cons a l ih =>
      intro acc
      simp only [List.foldl_cons, ih]
      cases save
      · simp [scoreboard_step]
      · cases hb : process_results fw bm (task_results_for results a)
            (some a.name)
        · simp [scoreboard_step, List.filterMap_cons, hb]
        · simp [scoreboard_step, List.filterMap_cons, hb]

/-- C10.  Last-task-only report: when the scoreboard loop of
`Benchmark.run` processes a task list with at least two entries, the
returned value is the scoreboard built for the last task only, while the
boards of every task in the list (earlier ones included) are built and,
when saving is enabled, persisted. -/
theorem last_task_scoreboard (fw bm : String) (save : Bool)
    (results : List JobCompletion) (tds : List TaskDef) (t : TaskDef)
    (_h : tds ≠ []) :
    (run_scoreboard_loop fw bm save results (tds ++ [t])).2
      = process_results fw bm (task_results_for results t) (some t.name) ∧
    (run_scoreboard_loop fw bm save results (tds ++ [t])).1
      = (if save then (tds ++ [t]).filterMap (fun td =>
          process_results fw bm (task_results_for results td) (some td.name))
        else []) := by
  constructor
  · simp only [run_scoreboard_loop, List.foldl_append, List.foldl_cons,
      List.foldl_nil]
    rfl
  · have hb := scoreboard_foldl_boards fw bm save results (tds ++ [t])
      ([], none)
    simpa [run_scoreboard_loop] using hb

/-- A second sample task definition, for instantiating the multi-task
scenarios. -/
def wine_task_def : TaskDef :=
  { name := "wine", folds := 1, metric := ["rmse"], seed := 42,
    max_runtime_seconds := 600, cores := 4, max_mem_size_mb := 1024,
    enabled := some true, openml_task_id := some 187,
    openml_dataset_id := none, dataset := none, id := none }

/-- Witness for C10: with the two-task list `[iris, wine]` the loop returns
the board built for wine, and both boards are persisted. -/
theorem last_task_scoreboard_witness :
    (run_scoreboard_loop "constant" "test" true
        [⟨some ⟨"iris", .val 1, 10⟩, 1⟩, ⟨some ⟨"wine", .val 2, 20⟩, 2⟩]
        ([iris_task_def] ++ [wine_task_def])).2
      = process_results "constant" "test"
          (task_results_for
            [⟨some ⟨"iris", .val 1, 10⟩, 1⟩, ⟨some ⟨"wine", .val 2, 20⟩, 2⟩]
            wine_task_def)
          (some wine_task_def.name) ∧
    (run_scoreboard_loop "constant" "test" true
        [⟨some ⟨"iris", .val 1, 10⟩, 1⟩, ⟨some ⟨"wine", .val 2, 20⟩, 2⟩]
        ([iris_task_def] ++ [wine_task_def])).1
      = (if true then ([iris_task_def] ++ [wine_task_def]).filterMap (fun td =>
          process_results "constant" "test"
            (task_results_for
              [⟨some ⟨"iris", .val 1, 10⟩, 1⟩, ⟨some ⟨"wine", .val 2, 20⟩, 2⟩]
              td)
            (some td.name))
        else []) :=
  last_task_scoreboard "constant" "test" true
    [⟨some ⟨"iris", .val 1, 10⟩, 1⟩, ⟨some ⟨"wine", .val 2, 20⟩, 2⟩]
    [iris_task_def] wine_task_def (List.cons_ne_nil _ _)

end AutoML
